import Mathlib

/-!
Verification of the AlfaBySinapsi polling engine (TaskScheduler.js and
SinapsiConnect.js) against its natural-language specification.

The JavaScript source is shallowly embedded: pure computations become Lean
functions over Nat/Int (JavaScript 32-bit integer operators are modelled with
explicit reductions modulo 2^32), and the stateful components (scheduler,
connection manager, reconnect bookkeeping, disconnection countdown) become
explicit state-passing step functions driven by event traces.
-/

namespace AlfaBySinapsi

/-! ## JavaScript 32-bit integer semantics

`_readSingleSensor` decodes a uint32 register pair with the JavaScript
expression `(data.data[0] << 16) | data.data[1]`.  JavaScript `<<` and `|`
coerce their operands with ToInt32, i.e. they operate on 32-bit two's
complement integers.  We model that exactly. -/

/-- ToUint32: the 32-bit pattern of an integer, as a Nat in `[0, 2^32)`. -/
def toUint32 (x : Int) : Nat := (x % 4294967296).toNat

/-- Reinterpret a 32-bit pattern as a signed (two's complement) integer,
as JavaScript bitwise operators do with their result. -/
def int32OfUint32 (n : Nat) : Int :=
  if n < 2147483648 then (n : Int) else (n : Int) - 4294967296

/-- JavaScript `a << 16` (shift of the ToInt32 image, result an int32). -/
def jsShl16 (a : Int) : Int := int32OfUint32 (toUint32 a * 65536 % 4294967296)

/-- JavaScript `a | b` (bitwise or of the 32-bit patterns, result an int32). -/
def jsOr (a b : Int) : Int := int32OfUint32 (toUint32 a ||| toUint32 b)

/-- Value decoding of `_readSingleSensor` (SinapsiConnect.js):
`sensor.type === "uint32" ? (data.data[0] << 16) | data.data[1] : data.data[0]`.
The returned Modbus words are 16-bit Nats, listed high word first. -/
def decodeValue (stype : String) (words : List Nat) : Int :=
  if stype = "uint32" then
    jsOr (jsShl16 ((words.getD 0 0 : Nat) : Int)) (((words.getD 1 0 : Nat) : Int))
  else
    ((words.getD 0 0 : Nat) : Int)

lemma decodeValue_uint32 (hi lo : Nat) :
    decodeValue "uint32" [hi, lo] = jsOr (jsShl16 ((hi : Nat) : Int)) ((lo : Nat) : Int) := rfl

lemma decodeValue_uint16 (w : Nat) :
    decodeValue "uint16" [w] = ((w : Nat) : Int) := rfl

lemma toUint32_ofNat_lt (n : Nat) (h : n < 4294967296) :
    toUint32 ((n : Nat) : Int) = n := by
  unfold toUint32
  omega

lemma toUint32_int32OfUint32 (n : Nat) (h : n < 4294967296) :
    toUint32 (int32OfUint32 n) = n := by
  unfold toUint32 int32OfUint32
  split <;> omega

/-- Or-ing a value shifted past `k` bits with a `k`-bit value is addition. -/
lemma lor_mul_two_pow (k a b : Nat) (hb : b < 2 ^ k) :
    (a * 2 ^ k) ||| b = a * 2 ^ k + b := by
  induction k generalizing b with
  | zero =>
    have hb0 : b = 0 := by omega
    subst hb0
    simp
  | succ k ih =>
    have key : a * 2 ^ (k + 1) = (a * 2 ^ k) * 2 := by
      rw [pow_succ, Nat.mul_assoc]
    have hb2 : b / 2 < 2 ^ k := by
      have hpow : (2 : Nat) ^ (k + 1) = 2 ^ k * 2 := pow_succ 2 k
      have hb2' : b < 2 ^ k * 2 := hpow ▸ hb
      omega
    have hrec := ih (b / 2) hb2
    have hdiv : (((a * 2 ^ k) * 2) ||| b) / 2 = (a * 2 ^ k) ||| (b / 2) := by
      rw [Nat.or_div_two]
      congr 1
      omega
    have hmod : (((a * 2 ^ k) * 2) ||| b) % 2 = b % 2 := by
      rcases Nat.mod_two_eq_zero_or_one b with h0 | h1
      · have hne : ¬ ((((a * 2 ^ k) * 2) ||| b) % 2 = 1) := by
          rw [Nat.or_mod_two_eq_one]
          omega
        omega
      · have he : (((a * 2 ^ k) * 2) ||| b) % 2 = 1 := by
          rw [Nat.or_mod_two_eq_one]
          omega
        omega
    have hfull := Nat.div_add_mod (((a * 2 ^ k) * 2) ||| b) 2
    rw [key]
    omega

lemma decode_uint32_eval (hi lo : Nat) (hhi : hi < 65536) (hlo : lo < 65536) :
    decodeValue "uint32" [hi, lo] = int32OfUint32 (hi * 65536 + lo) := by
  rw [decodeValue_uint32]
  unfold jsOr jsShl16
  rw [toUint32_ofNat_lt hi (by omega), toUint32_ofNat_lt lo (by omega)]
  have hmul : hi * 65536 < 4294967296 := by omega
  rw [Nat.mod_eq_of_lt hmul, toUint32_int32OfUint32 (hi * 65536) hmul]
  have h16 : hi * 65536 = hi * 2 ^ 16 := by norm_num
  rw [h16, lor_mul_two_pow 16 hi lo (by omega)]

/-- C1 (counterexample): the claim demands that decoding the word pair
`[hi, lo]` yields the exact non-negative integer `hi * 65536 + lo` for every
`hi, lo` in `0..65535`; but the JavaScript expression
`(data.data[0] << 16) | data.data[1]` works on 32-bit signed integers, so at
`hi = 32768, lo = 0` the code produces `-2147483648`, not `2147483648`. -/
theorem decode_uint32_not_nonneg_cex :
    decodeValue "uint32" [32768, 0] = -2147483648 ∧
    decodeValue "uint32" [32768, 0] ≠ (32768 * 65536 + 0 : Int) := by
  have h : decodeValue "uint32" [32768, 0] = -2147483648 := by
    rw [decode_uint32_eval 32768 0 (by omega) (by omega)]
    unfold int32OfUint32
    norm_num
  refine ⟨h, ?_⟩
  rw [h]
  norm_num

/-- C1 (amended): for every `hi, lo` in `0..65535`, the uint32 decode equals
the 32-bit two's complement reinterpretation of `hi * 65536 + lo`: the exact
value `hi * 65536 + lo` when `hi < 32768`, and `hi * 65536 + lo - 2^32`
(a negative number) when `hi ≥ 32768`; a uint16 decode passes the single
word through unchanged. -/
theorem decode_words_amended :
    (∀ hi lo : Nat, hi < 65536 → lo < 65536 →
      decodeValue "uint32" [hi, lo] =
        if hi < 32768 then ((hi * 65536 + lo : Nat) : Int)
        else ((hi * 65536 + lo : Nat) : Int) - 4294967296) ∧
    (∀ w : Nat, decodeValue "uint16" [w] = ((w : Nat) : Int)) := by
  constructor
  · intro hi lo hhi hlo
    rw [decode_uint32_eval hi lo hhi hlo]
    unfold int32OfUint32
    split <;> split <;> omega
  · intro w
    exact decodeValue_uint16 w

/-- C1 witness: evaluates the amended decode at concrete inputs,
discharging the range hypotheses there. -/
theorem decode_words_amended_witness :
    decodeValue "uint16" [7] = ((7 : Nat) : Int) ∧
    decodeValue "uint32" [1, 2] =
      (if 1 < 32768 then ((1 * 65536 + 2 : Nat) : Int)
       else ((1 * 65536 + 2 : Nat) : Int) - 4294967296) :=
  ⟨decode_words_amended.2 7, decode_words_amended.1 1 2 (by decide) (by decide)⟩

/-! ## TaskScheduler (lib/TaskScheduler.js)

State of one `TaskScheduler` instance.  `timerArmed` models
`this.timer !== null`, `listeners` the EventEmitter's registered listeners
(by id), and `inFlight` is a ghost counter of task executions that have been
started (`await this.task()`) and not yet finished. -/
structure SchedState where
  isRunning : Bool
  isScheduled : Bool
  consecutiveErrors : Nat
  timerArmed : Bool
  interval : Int
  listeners : List Nat
  inFlight : Nat
  deriving Repr, DecidableEq

/-- Notifications delivered during one step: `started` is true when the step
invoked `this.task()`; `completedTo`/`errorTo` list the listeners that
received `taskCompleted`/`taskError`. -/
structure SchedOut where
  started : Bool
  completedTo : List Nat
  errorTo : List Nat
  deriving Repr, DecidableEq

def noSchedOut : SchedOut := ⟨false, [], []⟩

/-- `maxConsecutiveErrors` in TaskScheduler.js. -/
def maxConsecutiveErrors : Nat := 3

/-- `stop()`: clear the scheduled flag, cancel the pending timer, remove all
EventEmitter listeners, and reset `isRunning`/`consecutiveErrors`. -/
def stopFn (s : SchedState) : SchedState :=
  { s with isScheduled := false, timerArmed := false, listeners := [],
           isRunning := false, consecutiveErrors := 0 }

/-- The synchronous entry of `_executeTask()` up to the first `await`:
if a task is still running the tick is skipped (`consecutiveErrors`
incremented, scheduler stopped at the third consecutive skip, no timer armed,
no task started); otherwise the task is started. -/
def execEnter (s : SchedState) : SchedState × Bool :=
  if s.isRunning then
    let c := s.consecutiveErrors + 1
    let s1 := { s with consecutiveErrors := c }
    (if maxConsecutiveErrors ≤ c then stopFn s1 else s1, false)
  else
    ({ s with isRunning := true, inFlight := s.inFlight + 1 }, true)

/-- `start()`: no-op when already scheduled, else set the flag and execute
the first run immediately. -/
def startFn (s : SchedState) : SchedState × Bool :=
  if s.isScheduled then (s, false)
  else execEnter { s with isScheduled := true }

/-- Resumption of `_executeTask()` when the awaited `this.task()` settles
(`ok` = resolved vs rejected), including the `finally` block: reset or bump
`consecutiveErrors`, emit the notification, clear `isRunning`, and re-arm the
timer only when still scheduled. -/
def finishStep (ok : Bool) (s : SchedState) : SchedState × SchedOut :=
  if s.inFlight = 0 then (s, noSchedOut)
  else
    let s1 :=
      if ok then { s with consecutiveErrors := 0 }
      else { s with consecutiveErrors := s.consecutiveErrors + 1 }
    let out : SchedOut :=
      if ok then ⟨false, s.listeners, []⟩
      else if maxConsecutiveErrors ≤ s.consecutiveErrors + 1 then ⟨false, [], s.listeners⟩
      else noSchedOut
    let s2 := { s1 with isRunning := false, inFlight := s1.inFlight - 1 }
    (if s2.isScheduled then { s2 with timerArmed := true } else s2, out)

/-- `setInterval(newInterval)`: reject non-positive intervals with
`SchedulerError('ERROR_SET_INTERVAL')`; otherwise store the interval and,
when currently scheduled, restart via `stop()` then `start()`. -/
def setIntervalFn (n : Int) (s : SchedState) : Except String SchedState :=
  if n ≤ 0 then .error "ERROR_SET_INTERVAL"
  else
    let s1 := { s with interval := n }
    if s1.isScheduled then .ok (startFn (stopFn s1)).1
    else .ok s1

/-- Events that can hit a scheduler instance: the armed timer firing, a direct
`_executeTask()` invocation, the in-flight task settling, and listener
registration (`on`). -/
inductive SchedEv where
  | timerFire
  | invoke
  | finish (ok : Bool)
  | onEv (l : Nat)
  deriving Repr, DecidableEq

def schedStep (s : SchedState) (e : SchedEv) : SchedState × SchedOut :=
  match e with
  | .timerFire =>
      if s.timerArmed then
        let r := execEnter { s with timerArmed := false }
        (r.1, { noSchedOut with started := r.2 })
      else (s, noSchedOut)
  | .invoke =>
      let r := execEnter s
      (r.1, { noSchedOut with started := r.2 })
  | .finish ok => finishStep ok s
  | .onEv l => ({ s with listeners := s.listeners ++ [l] }, noSchedOut)

def runSched (s : SchedState) (t : List SchedEv) : SchedState :=
  t.foldl (fun s e => (schedStep s e).1) s

/-- A freshly constructed scheduler: not scheduled, not running. -/
def schedInit : SchedState :=
  ⟨false, false, 0, false, 3600000, [], 0⟩

/-- Timer-driven life of one instance: only timer ticks and task settlements. -/
def tickOrFinish : SchedEv → Bool
  | .timerFire => true
  | .finish _ => true
  | _ => false

/-- Inductive invariant for timer-driven traces: the ghost in-flight counter
matches `isRunning`, and an armed timer implies no task is running. -/
def SchedInv (s : SchedState) : Prop :=
  (s.isRunning = true → s.inFlight = 1) ∧
  (s.isRunning = false → s.inFlight = 0) ∧
  (s.timerArmed = true → s.isRunning = false)

lemma schedInv_preserved (s : SchedState) (e : SchedEv) (hinv : SchedInv s)
    (he : tickOrFinish e = true) : SchedInv ((schedStep s e).1) := by
  obtain ⟨hr1, hr0, ht⟩ := hinv
  cases e with
  | timerFire =>
      by_cases htim : s.timerArmed = true
      · have hrun : s.isRunning = false := ht htim
        have hfl : s.inFlight = 0 := hr0 hrun
        simp [schedStep, execEnter, htim, hrun, SchedInv, hfl]
      · simp only [Bool.not_eq_true] at htim
        exact ⟨by simpa [schedStep, htim] using hr1,
               by simpa [schedStep, htim] using hr0,
               by simpa [schedStep, htim] using ht⟩
  | finish ok =>
      by_cases hz : s.inFlight = 0
      · exact ⟨by simpa [schedStep, finishStep, hz] using hr1,
               by simpa [schedStep, finishStep, hz] using hr0,
               by simpa [schedStep, finishStep, hz] using ht⟩
      · have hfl : s.inFlight ≤ 1 := by
          by_cases hrun : s.isRunning = true
          · have h := hr1 hrun
            omega
          · simp only [Bool.not_eq_true] at hrun
            have h := hr0 hrun
            omega
        by_cases hsch : s.isScheduled = true <;>
          cases ok <;>
          simp [schedStep, finishStep, hz, hsch, SchedInv] <;> omega
  | invoke => simp [tickOrFinish] at he
  | onEv l => simp [tickOrFinish] at he

lemma schedInv_run (t : List SchedEv) (s : SchedState) (hinv : SchedInv s)
    (ht : ∀ e ∈ t, tickOrFinish e = true) : SchedInv (runSched s t) := by
  induction t generalizing s with
  | nil => simpa [runSched] using hinv
  | cons e rest ih =>
      have h1 := schedInv_preserved s e hinv (ht e (by simp))
      have h2 : ∀ x ∈ rest, tickOrFinish x = true := fun x hx => ht x (by simp [hx])
      simpa [runSched] using ih ((schedStep s e).1) h1 h2

/-- C2: at most one task execution is in flight at any time.  A tick arriving
while a previous execution has not completed starts nothing and queues
nothing: the skip path of `_executeTask` does not invoke the task, leaves the
in-flight count unchanged, and never arms a timer.  Moreover along every
timer-driven trace (arbitrary interleaving of timer ticks and task
settlements, hence arbitrary tick rate and task duration) the number of
executions in flight never exceeds one. -/
theorem scheduler_single_flight :
    (∀ s : SchedState, s.isRunning = true →
      (execEnter s).2 = false ∧
      ((execEnter s).1).inFlight = s.inFlight ∧
      (s.timerArmed = false → ((execEnter s).1).timerArmed = false)) ∧
    (∀ t : List SchedEv, (∀ e ∈ t, tickOrFinish e = true) →
      (runSched (startFn schedInit).1 t).inFlight ≤ 1) := by
  constructor
  · intro s hrun
    refine ⟨by simp [execEnter, hrun], ?_, ?_⟩
    · simp only [execEnter, hrun, if_true]
      split <;> rfl
    · intro htim
      simp only [execEnter, hrun, if_true]
      split <;> simp [stopFn, htim]
  · intro t ht
    have h0 : SchedInv (startFn schedInit).1 := by
      refine ⟨?_, ?_, ?_⟩ <;> simp [startFn, schedInit, execEnter]
    obtain ⟨hr1, hr0, _⟩ := schedInv_run t (startFn schedInit).1 h0 ht
    by_cases hrun : (runSched (startFn schedInit).1 t).isRunning = true
    · have h := hr1 hrun
      omega
    · simp only [Bool.not_eq_true] at hrun
      have h := hr0 hrun
      omega

/-- C2 witness: a concrete running state and a concrete timer-driven trace. -/
theorem scheduler_single_flight_witness :
    ((execEnter ⟨true, true, 0, false, 1000, [], 1⟩).2 = false ∧
      ((execEnter ⟨true, true, 0, false, 1000, [], 1⟩).1).inFlight = 1 ∧
      (false = false → ((execEnter ⟨true, true, 0, false, 1000, [], 1⟩).1).timerArmed = false)) ∧
    (runSched (startFn schedInit).1
      [SchedEv.finish true, SchedEv.timerFire, SchedEv.finish false]).inFlight ≤ 1 := by
  constructor
  · have h := scheduler_single_flight.1 ⟨true, true, 0, false, 1000, [], 1⟩ rfl
    exact ⟨h.1, h.2.1, fun _ => h.2.2 rfl⟩
  · exact scheduler_single_flight.2 _ (by decide)

/-- C3: three consecutive skipped (overlapping) ticks with no intervening
completion stop the scheduler: starting from a running task and a zero skip
counter, the third consecutive `_executeTask` invocation that finds the task
still running calls `stop()`, after which the scheduler is unscheduled, no
timer is armed, a timer-fire event is a no-op, and even when the stuck task
finally settles the `finally` block arms no new timer — so no further tick is
ever emitted.  On successful task completion the skip counter resets to 0. -/
theorem scheduler_stuck_stop :
    (∀ s : SchedState, s.isRunning = true → s.consecutiveErrors = 0 →
      (execEnter (execEnter (execEnter s).1).1).1.isScheduled = false ∧
      (execEnter (execEnter (execEnter s).1).1).1.timerArmed = false ∧
      (schedStep (execEnter (execEnter (execEnter s).1).1).1 SchedEv.timerFire).1 =
        (execEnter (execEnter (execEnter s).1).1).1 ∧
      (∀ ok, ((finishStep ok (execEnter (execEnter (execEnter s).1).1).1).1).isScheduled = false ∧
             ((finishStep ok (execEnter (execEnter (execEnter s).1).1).1).1).timerArmed = false)) ∧
    (∀ s : SchedState, s.inFlight ≠ 0 →
      ((finishStep true s).1).consecutiveErrors = 0) := by
  constructor
  · intro s hrun hc
    have h3 : (execEnter (execEnter (execEnter s).1).1).1 =
        stopFn { s with consecutiveErrors := 3 } := by
      simp [execEnter, hrun, hc, maxConsecutiveErrors, stopFn]
    rw [h3]
    refine ⟨rfl, rfl, by simp [schedStep, stopFn], ?_⟩
    intro ok
    by_cases hz : s.inFlight = 0
    · constructor <;> simp [finishStep, stopFn, hz]
    · constructor <;> cases ok <;> simp [finishStep, stopFn, hz]
  · intro s hnz
    by_cases hsch : s.isScheduled = true <;> simp [finishStep, hnz, hsch]

/-- C3 witness: a concrete stuck scheduler is stopped by the third skipped
tick, and a successful completion resets the counter. -/
theorem scheduler_stuck_stop_witness :
    ((execEnter (execEnter (execEnter
        (⟨true, true, 0, true, 1000, [4], 1⟩ : SchedState)).1).1).1.isScheduled = false ∧
      (execEnter (execEnter (execEnter
        (⟨true, true, 0, true, 1000, [4], 1⟩ : SchedState)).1).1).1.timerArmed = false ∧
      (schedStep (execEnter (execEnter (execEnter
        (⟨true, true, 0, true, 1000, [4], 1⟩ : SchedState)).1).1).1 SchedEv.timerFire).1 =
        (execEnter (execEnter (execEnter
        (⟨true, true, 0, true, 1000, [4], 1⟩ : SchedState)).1).1).1 ∧
      (∀ ok, ((finishStep ok (execEnter (execEnter (execEnter
          (⟨true, true, 0, true, 1000, [4], 1⟩ : SchedState)).1).1).1).1).isScheduled = false ∧
             ((finishStep ok (execEnter (execEnter (execEnter
          (⟨true, true, 0, true, 1000, [4], 1⟩ : SchedState)).1).1).1).1).timerArmed = false)) ∧
    ((finishStep true (⟨true, true, 2, false, 1000, [], 1⟩ : SchedState)).1).consecutiveErrors = 0 :=
  ⟨scheduler_stuck_stop.1 ⟨true, true, 0, true, 1000, [4], 1⟩ rfl rfl,
   scheduler_stuck_stop.2 ⟨true, true, 2, false, 1000, [], 1⟩ (by decide)⟩

lemma schedStep_keeps_no_listeners (s : SchedState) (e : SchedEv)
    (hnil : s.listeners = []) (hne : ∀ l, e ≠ SchedEv.onEv l) :
    ((schedStep s e).1).listeners = [] := by
  cases e with
  | timerFire =>
      by_cases htim : s.timerArmed = true
      · by_cases hrun : s.isRunning = true
        · simp only [schedStep, htim, if_true, execEnter]
          simp [hrun]
          split <;> simp [stopFn, hnil]
        · simp only [Bool.not_eq_true] at hrun
          simp [schedStep, execEnter, htim, hrun, hnil]
      · simp only [Bool.not_eq_true] at htim
        simp [schedStep, htim, hnil]
  | invoke =>
      by_cases hrun : s.isRunning = true
      · simp only [schedStep, execEnter, hrun, if_true]
        split <;> simp [stopFn, hnil]
      · simp only [Bool.not_eq_true] at hrun
        simp [schedStep, execEnter, hrun, hnil]
  | finish ok =>
      by_cases hz : s.inFlight = 0
      · simp [schedStep, finishStep, hz, hnil]
      · by_cases hsch : s.isScheduled = true <;>
          cases ok <;> simp [schedStep, finishStep, hz, hsch, hnil]
  | onEv l => exact absurd rfl (hne l)

lemma runSched_keeps_no_listeners (t : List SchedEv) (s : SchedState)
    (hnil : s.listeners = []) (hno : ∀ l, SchedEv.onEv l ∉ t) :
    (runSched s t).listeners = [] := by
  induction t generalizing s with
  | nil => simpa [runSched] using hnil
  | cons e rest ih =>
      have hne : ∀ l, e ≠ SchedEv.onEv l := by
        intro l hl
        exact hno l (by simp [hl])
      have hrest : ∀ l, SchedEv.onEv l ∉ rest := by
        intro l hl
        exact hno l (by simp [hl])
      have h1 := schedStep_keeps_no_listeners s e hnil hne
      simpa [runSched] using ih ((schedStep s e).1) h1 hrest

/-- C10: `stop()` removes every registered listener, and
`setInterval(newInterval)` with a positive interval on a scheduled instance
restarts through `stop()`/`start()`, leaving the listener set empty; from then
on (as long as nothing re-registers) every `taskCompleted`/`taskError`
notification is delivered to nobody. -/
theorem setInterval_clears_listeners :
    (∀ s : SchedState, (stopFn s).listeners = []) ∧
    (∀ (s : SchedState) (n : Int), 0 < n → s.isScheduled = true →
      ∃ s2, setIntervalFn n s = .ok s2 ∧ s2.listeners = [] ∧
        (∀ t : List SchedEv, (∀ l, SchedEv.onEv l ∉ t) →
          (runSched s2 t).listeners = []) ∧
        (∀ ok, ((finishStep ok s2).2).completedTo = [] ∧
               ((finishStep ok s2).2).errorTo = [])) := by
  constructor
  · intro s
    rfl
  · intro s n hn hsched
    have hpos : ¬ n ≤ 0 := by omega
    refine ⟨(startFn (stopFn { s with interval := n })).1, ?_, ?_, ?_, ?_⟩
    · simp [setIntervalFn, hpos, hsched]
    · simp [startFn, stopFn, execEnter]
    · intro t hno
      refine runSched_keeps_no_listeners t _ ?_ hno
      simp [startFn, stopFn, execEnter]
    · intro ok
      have hs2 : ((startFn (stopFn { s with interval := n })).1).listeners = [] := by
        simp [startFn, stopFn, execEnter]
      by_cases hz : ((startFn (stopFn { s with interval := n })).1).inFlight = 0
      · constructor <;> simp [finishStep, hz, noSchedOut]
      · constructor <;>
          cases ok <;> simp [finishStep, hz, hs2, noSchedOut] <;> split <;> simp

/-- C10 witness: a scheduled scheduler with one registered listener, restarted
with `setInterval 5000`, ends with no listeners and delivers nothing. -/
theorem setInterval_clears_listeners_witness :
    (stopFn ⟨false, true, 0, true, 1000, [7], 0⟩).listeners = [] ∧
    ∃ s2, setIntervalFn 5000 (⟨false, true, 0, true, 1000, [7], 0⟩ : SchedState) = .ok s2 ∧
      s2.listeners = [] ∧
      (∀ t : List SchedEv, (∀ l, SchedEv.onEv l ∉ t) →
        (runSched s2 t).listeners = []) ∧
      (∀ ok, ((finishStep ok s2).2).completedTo = [] ∧
             ((finishStep ok s2).2).errorTo = []) :=
  ⟨setInterval_clears_listeners.1 _,
   setInterval_clears_listeners.2 ⟨false, true, 0, true, 1000, [7], 0⟩ 5000
     (by decide) rfl⟩

/-! ## Connection management (SinapsiConnect.js)

Transport/connection state visible to `_isConnectionHealthy` and
`ensureConnected`: the modbus-serial client handle, its `isOpen` flag, the
underlying socket and its `destroyed` flag, the instance flag `isConnected`,
and the counters touched by a successful connect. -/
structure ConnState where
  clientPresent : Bool
  clientOpen : Bool
  socketPresent : Bool
  socketDestroyed : Bool
  isConnected : Bool
  reconnectAttempts : Nat
  consecutiveFailures : Nat
  deriving Repr, DecidableEq

/-- `_isConnectionHealthy()`: requires a client, the `isConnected` flag, the
client's `isOpen` flag, and — stricter than the open flag — that the
underlying socket, when present, is not destroyed. -/
def isConnectionHealthy (s : ConnState) : Bool :=
  if !s.clientPresent then false
  else if !s.isConnected then false
  else if !s.clientOpen then false
  else if s.socketPresent && s.socketDestroyed then false
  else true

/-- Result of one `ensureConnected()` call: the returned boolean, the state
after the call, how many `connectTCP` attempts were made, and whether a stale
open client was closed before reconnecting. -/
structure EnsureOut where
  ok : Bool
  state : ConnState
  connectAttempts : Nat
  closedStale : Bool
  deriving Repr, DecidableEq

/-- `ensureConnected()`, with the outcome of the (at most one) fresh
`connectTCP` attempt supplied by the environment as `connectOk`.  Mirrors the
source: return true immediately when connected and healthy; otherwise mark
the instance disconnected, close a stale open client, create a fresh client,
and connect once — on success set `isConnected` and zero the retry counters,
on failure return false. -/
def ensureConnected (s : ConnState) (connectOk : Bool) : EnsureOut :=
  if s.isConnected && isConnectionHealthy s then
    ⟨true, s, 0, false⟩
  else
    let s1 := if s.isConnected && !isConnectionHealthy s then
        { s with isConnected := false }
      else s
    if !s1.isConnected then
      let closed := s1.clientPresent && s1.clientOpen
      if connectOk then
        ⟨true,
         { s1 with clientPresent := true, clientOpen := true,
                   socketPresent := true, socketDestroyed := false,
                   isConnected := true, reconnectAttempts := 0,
                   consecutiveFailures := 0 },
         1, closed⟩
      else
        ⟨false,
         { s1 with clientPresent := true, clientOpen := false,
                   isConnected := false },
         1, closed⟩
    else
      ⟨s1.isConnected, s1, 0, false⟩

/-- C4: `ensureConnected()` returns true with no connect attempt when the
transport is connected and healthy; otherwise it makes exactly one fresh
connect attempt (closing a stale open client first) and returns that
attempt's outcome.  Health is stricter than the open flag: a destroyed
underlying socket makes the connection unhealthy even while `isOpen` and
`isConnected` are still true. -/
theorem ensureConnected_contract :
    (∀ (s : ConnState) (c : Bool), isConnectionHealthy s = true →
      ensureConnected s c = ⟨true, s, 0, false⟩) ∧
    (∀ (s : ConnState) (c : Bool), isConnectionHealthy s = false →
      (ensureConnected s c).connectAttempts = 1 ∧
      (ensureConnected s c).ok = c ∧
      ((ensureConnected s c).state).isConnected = c ∧
      (s.isConnected = false → s.clientPresent = true → s.clientOpen = true →
        (ensureConnected s c).closedStale = true)) ∧
    (∀ s : ConnState, s.isConnected = true → s.clientPresent = true →
      s.clientOpen = true → s.socketPresent = true → s.socketDestroyed = true →
      isConnectionHealthy s = false) := by
  refine ⟨?_, ?_, ?_⟩
  · intro s c hh
    have hconn : s.isConnected = true := by
      by_contra hc
      simp only [Bool.not_eq_true] at hc
      simp [isConnectionHealthy, hc] at hh
    simp [ensureConnected, hconn, hh]
  · intro s c hh
    by_cases hconn : s.isConnected = true
    · cases c <;> simp [ensureConnected, hconn, hh]
    · simp only [Bool.not_eq_true] at hconn
      cases c <;> simp [ensureConnected, hconn, hh] <;> tauto
  · intro s h1 h2 h3 h4 h5
    simp [isConnectionHealthy, h1, h2, h3, h4, h5]

/-- C4 witness: a healthy state returns true without connecting; a state with
a stale-true open flag but destroyed socket is unhealthy and triggers exactly
one reconnect attempt. -/
theorem ensureConnected_contract_witness :
    ensureConnected ⟨true, true, true, false, true, 2, 3⟩ false =
      ⟨true, ⟨true, true, true, false, true, 2, 3⟩, 0, false⟩ ∧
    isConnectionHealthy ⟨true, true, true, true, true, 0, 0⟩ = false ∧
    (ensureConnected ⟨true, true, true, true, true, 0, 0⟩ true).connectAttempts = 1 :=
  ⟨ensureConnected_contract.1 ⟨true, true, true, false, true, 2, 3⟩ false (by decide),
   ensureConnected_contract.2.2 ⟨true, true, true, true, true, 0, 0⟩
     rfl rfl rfl rfl rfl,
   (ensureConnected_contract.2.1 ⟨true, true, true, true, true, 0, 0⟩ true (by decide)).1⟩

/-! ## Reconnect scheduling (`_scheduleReconnect` in SinapsiConnect.js)

`reconnectAttempts` and `pending` (= `reconnectTimeouts.length`) as the
source keeps them, plus two observation counters: `exhaustReports` counts the
"Max reconnection attempts reached. Giving up." reports, and
`scheduledTotal` counts timeouts actually scheduled. -/
structure ReconnectState where
  reconnectAttempts : Nat
  pending : Nat
  exhaustReports : Nat
  scheduledTotal : Nat
  deriving Repr, DecidableEq

/-- `maxReconnectAttempts` in SinapsiConnect.js. -/
def maxReconnectAttempts : Nat := 10

/-- `_scheduleReconnect(reason)`: report and bail out at the attempt cap;
skip when a reconnect timeout is already pending; otherwise increment the
attempt counter and schedule one delayed `connectModbus()`. -/
def scheduleReconnect (s : ReconnectState) : ReconnectState :=
  if maxReconnectAttempts ≤ s.reconnectAttempts then
    { s with exhaustReports := s.exhaustReports + 1 }
  else if 0 < s.pending then s
  else
    { s with reconnectAttempts := s.reconnectAttempts + 1,
             pending := s.pending + 1,
             scheduledTotal := s.scheduledTotal + 1 }

/-- Fault events on one instance while no connect ever succeeds: `fault` is
any fault handler calling `_scheduleReconnect`; `fire` is a pending reconnect
timeout firing, whose `connectModbus()` fails and re-enters
`_scheduleReconnect` via the rejection handler. -/
inductive ReconnectEv where
  | fault
  | fire
  deriving Repr, DecidableEq

def reconnectStep (s : ReconnectState) (e : ReconnectEv) : ReconnectState :=
  match e with
  | .fault => scheduleReconnect s
  | .fire =>
      if 0 < s.pending then scheduleReconnect { s with pending := s.pending - 1 }
      else s

def runReconnect (s : ReconnectState) (t : List ReconnectEv) : ReconnectState :=
  t.foldl reconnectStep s

/-- A fresh instance: no attempts, no pending timeout, nothing reported. -/
def reconnectInit : ReconnectState := ⟨0, 0, 0, 0⟩

/-- The fault trace refuting the "reported exactly once" part of C5: one
fault schedules attempt 1; ten firing-and-failing timeouts walk the counter
to the cap (the tenth failure already logs "giving up" once); one further
fault reports exhaustion a second time. -/
def reconnectCexTrace : List ReconnectEv :=
  [ReconnectEv.fault] ++ List.replicate 10 ReconnectEv.fire ++ [ReconnectEv.fault]

/-- C5 (counterexample): on this instance exactly 10 reconnect attempts were
scheduled and all failed, yet the terminal "reconnection exhausted" condition
is reported twice, not exactly once — every `_scheduleReconnect` call past
the cap logs it again. -/
theorem reconnect_exhaust_report_cex :
    (runReconnect reconnectInit reconnectCexTrace).scheduledTotal = 10 ∧
    (runReconnect reconnectInit reconnectCexTrace).reconnectAttempts = 10 ∧
    (runReconnect reconnectInit reconnectCexTrace).exhaustReports = 2 := by
  decide

/-- Inductive invariant: the attempt counter never exceeds the cap and equals
the number of timeouts ever scheduled. -/
def ReconnectInv (s : ReconnectState) : Prop :=
  s.reconnectAttempts ≤ 10 ∧ s.scheduledTotal = s.reconnectAttempts

lemma reconnectInv_schedule (s : ReconnectState) (hinv : ReconnectInv s) :
    ReconnectInv (scheduleReconnect s) := by
  obtain ⟨h1, h2⟩ := hinv
  simp only [scheduleReconnect, maxReconnectAttempts]
  split_ifs with hA hB
  · exact ⟨h1, h2⟩
  · exact ⟨h1, h2⟩
  · exact ⟨by show s.reconnectAttempts + 1 ≤ 10; omega,
           by show s.scheduledTotal + 1 = s.reconnectAttempts + 1; omega⟩

lemma reconnectInv_preserved (s : ReconnectState) (e : ReconnectEv)
    (hinv : ReconnectInv s) : ReconnectInv (reconnectStep s e) := by
  cases e with
  | fault => exact reconnectInv_schedule s hinv
  | fire =>
      simp only [reconnectStep]
      split
      · exact reconnectInv_schedule _ ⟨hinv.1, hinv.2⟩
      · exact hinv

lemma reconnectInv_run (t : List ReconnectEv) (s : ReconnectState)
    (hinv : ReconnectInv s) : ReconnectInv (runReconnect s t) := by
  induction t generalizing s with
  | nil => simpa [runReconnect] using hinv
  | cons e rest ih =>
      simpa [runReconnect] using ih (reconnectStep s e) (reconnectInv_preserved s e hinv)

/-- C5 (amended): scheduling is deduplicated — with a reconnect already
pending, `_scheduleReconnect` changes no counter and schedules nothing; each
actually-scheduled attempt increments the attempt counter; after the cap of
10 the call schedules nothing and instead reports the exhausted condition on
every such call (so the terminal condition is reported at least once — on the
10th failed attempt's own re-entry — and once more per later fault, rather
than exactly once); and along every fault sequence from a fresh instance at
most 10 reconnect timeouts are ever scheduled. -/
theorem reconnect_cap_amended :
    (∀ s : ReconnectState, 0 < s.pending → s.reconnectAttempts < 10 →
      (scheduleReconnect s).pending = s.pending ∧
      (scheduleReconnect s).reconnectAttempts = s.reconnectAttempts ∧
      (scheduleReconnect s).scheduledTotal = s.scheduledTotal) ∧
    (∀ s : ReconnectState, s.pending = 0 → s.reconnectAttempts < 10 →
      (scheduleReconnect s).reconnectAttempts = s.reconnectAttempts + 1 ∧
      (scheduleReconnect s).scheduledTotal = s.scheduledTotal + 1) ∧
    (∀ s : ReconnectState, 10 ≤ s.reconnectAttempts →
      (scheduleReconnect s).scheduledTotal = s.scheduledTotal ∧
      (scheduleReconnect s).pending = s.pending ∧
      (scheduleReconnect s).exhaustReports = s.exhaustReports + 1) ∧
    (∀ t : List ReconnectEv, (runReconnect reconnectInit t).scheduledTotal ≤ 10) := by
  refine ⟨?_, ?_, ?_, ?_⟩
  · intro s hp ha
    have hcap : ¬ maxReconnectAttempts ≤ s.reconnectAttempts := by
      unfold maxReconnectAttempts
      omega
    simp [scheduleReconnect, hcap, hp]
  · intro s hp ha
    have hcap : ¬ maxReconnectAttempts ≤ s.reconnectAttempts := by
      unfold maxReconnectAttempts
      omega
    simp [scheduleReconnect, hcap, hp]
  · intro s hcap
    have hcap2 : maxReconnectAttempts ≤ s.reconnectAttempts := by
      unfold maxReconnectAttempts
      omega
    simp [scheduleReconnect, hcap2]
  · intro t
    obtain ⟨h1, h2⟩ := reconnectInv_run t reconnectInit ⟨by decide, rfl⟩
    omega

/-- C5 witness: the amended contract evaluated at concrete states and at the
counterexample trace. -/
theorem reconnect_cap_amended_witness :
    ((scheduleReconnect ⟨3, 1, 0, 3⟩).reconnectAttempts = 3 ∧
      (scheduleReconnect ⟨3, 1, 0, 3⟩).scheduledTotal = 3) ∧
    (scheduleReconnect ⟨3, 0, 0, 3⟩).reconnectAttempts = 3 + 1 ∧
    (scheduleReconnect ⟨10, 0, 1, 10⟩).exhaustReports = 1 + 1 ∧
    (runReconnect reconnectInit reconnectCexTrace).scheduledTotal ≤ 10 :=
  ⟨⟨(reconnect_cap_amended.1 ⟨3, 1, 0, 3⟩ (by decide) (by decide)).2.1,
    (reconnect_cap_amended.1 ⟨3, 1, 0, 3⟩ (by decide) (by decide)).2.2⟩,
   (reconnect_cap_amended.2.1 ⟨3, 0, 0, 3⟩ rfl (by decide)).1,
   (reconnect_cap_amended.2.2.1 ⟨10, 0, 1, 10⟩ (by decide)).2.2,
   reconnect_cap_amended.2.2.2 reconnectCexTrace⟩

/-! ## Read cycle (`readData` in SinapsiConnect.js)

A register descriptor from `config.sensors` and a per-cycle sensor reading as
built by `_readSingleSensor`. -/
structure Sensor where
  id : String
  name : String
  address : Nat
  count : Nat
  stype : String
  unit : String
  deriving Repr, DecidableEq

structure SensorReading where
  id : String
  name : String
  value : Int
  unit : String
  stype : String
  deriving Repr, DecidableEq

/-- The per-register loop of `readData`: each sensor is read in table order;
`outcome s = none` models `_readSingleSensor` returning null (timeout or
protocol error), which bumps `readErrors` and continues with the next sensor;
a successful read is pushed onto `sensorDataArray`.  Returns
`(sensorDataArray, readErrors)`. -/
def readCycleLoop : List Sensor → (Sensor → Option Int) → List SensorReading × Nat
  | [], _ => ([], 0)
  | s :: rest, outcome =>
      let tail := readCycleLoop rest outcome
      match outcome s with
      | none => (tail.1, tail.2 + 1)
      | some v => (⟨s.id, s.name, v, s.unit, s.stype⟩ :: tail.1, tail.2)

/-- `const wasSuccessful = sensorDataArray.length > 0` in `readData`. -/
def wasSuccessful (readings : List SensorReading) : Bool :=
  decide (0 < readings.length)

/-- C6: per-register failures are isolated.  For every register table and
every pattern of per-register outcomes, the failure count is the number of
registers whose read failed, the cycle returns exactly `n - k` readings for
`k` failures out of `n` registers, the returned readings list the successful
registers in table order, and whenever at least one register succeeds
(`k < n`) the cycle is classified successful. -/
theorem readCycle_isolated_failures :
    ∀ (sensors : List Sensor) (outcome : Sensor → Option Int),
      (readCycleLoop sensors outcome).2 =
        (sensors.filter (fun s => (outcome s).isNone)).length ∧
      ((readCycleLoop sensors outcome).1).length + (readCycleLoop sensors outcome).2 =
        sensors.length ∧
      ((readCycleLoop sensors outcome).1).map SensorReading.id =
        (sensors.filter (fun s => (outcome s).isSome)).map Sensor.id ∧
      ((readCycleLoop sensors outcome).2 < sensors.length →
        wasSuccessful (readCycleLoop sensors outcome).1 = true) := by
  intro sensors outcome
  have hmain : (readCycleLoop sensors outcome).2 =
        (sensors.filter (fun s => (outcome s).isNone)).length ∧
      ((readCycleLoop sensors outcome).1).length + (readCycleLoop sensors outcome).2 =
        sensors.length ∧
      ((readCycleLoop sensors outcome).1).map SensorReading.id =
        (sensors.filter (fun s => (outcome s).isSome)).map Sensor.id := by
    induction sensors with
    | nil => exact ⟨rfl, rfl, rfl⟩
    | cons s rest ih =>
        obtain ⟨ih1, ih2, ih3⟩ := ih
        rcases hout : outcome s with _ | v
        · refine ⟨?_, ?_, ?_⟩ <;>
            simp [readCycleLoop, hout, ih1, ih2, ih3] <;> omega
        · refine ⟨?_, ?_, ?_⟩ <;>
            simp [readCycleLoop, hout, ih1, ih2, ih3] <;> omega
  refine ⟨hmain.1, hmain.2.1, hmain.2.2, ?_⟩
  intro hk
  have h2 := hmain.2.1
  simp only [wasSuccessful, decide_eq_true_eq]
  omega

/-- Five registers of the Alfa table (`config.sensors` in config.js). -/
def alfaSensorsSample : List Sensor :=
  [⟨"measure_power", "Potenza Attiva Prelevata Istantanea", 2, 1, "uint16", "W"⟩,
   ⟨"imm_ist", "Potenza Attiva Immessa Istantanea", 12, 1, "uint16", "W"⟩,
   ⟨"meter_power.imported", "Energia Attiva Prelevata Totale", 5, 2, "uint32", "Wh"⟩,
   ⟨"alarm_generic", "Data evento", 780, 2, "uint32", ""⟩,
   ⟨"energy_detachment", "Tempo residuo distacco", 782, 1, "uint16", ""⟩]

/-- An outcome pattern where the reads at addresses 12 and 5 time out. -/
def timeoutTwoOfFive (s : Sensor) : Option Int :=
  if s.address = 12 ∨ s.address = 5 then none else some 100

/-- C6 witness: with 2 of 5 registers timing out, exactly 3 readings are
returned and the cycle is classified successful. -/
theorem readCycle_isolated_failures_witness :
    (readCycleLoop alfaSensorsSample timeoutTwoOfFive).2 = 2 ∧
    ((readCycleLoop alfaSensorsSample timeoutTwoOfFive).1).length = 3 ∧
    wasSuccessful (readCycleLoop alfaSensorsSample timeoutTwoOfFive).1 = true := by
  refine ⟨by decide, by decide, ?_⟩
  exact (readCycle_isolated_failures alfaSensorsSample timeoutTwoOfFive).2.2.2 (by decide)

/-! ## Disconnection countdown (`readData` in SinapsiConnect.js) -/

/-- `SinapsiConnect.DISCONNECT_ALARM_INACTIVE` (0xFFFFFFFF). -/
def DISCONNECT_ALARM_INACTIVE : Int := 4294967295

/-- The sentinel normalization applied to the raw `alarm_generic` value:
`this.eventDate = (rawValue === -1 || rawValue === 65535 ||
rawValue === SinapsiConnect.DISCONNECT_ALARM_INACTIVE) ? -1 : rawValue`. -/
def normalizeEventDate (rawValue : Int) : Int :=
  if rawValue = -1 ∨ rawValue = 65535 ∨ rawValue = DISCONNECT_ALARM_INACTIVE then -1
  else rawValue

/-- C7: the stored `eventTimestamp` is `-1` exactly when the raw value
is one of the three sentinels `-1`, `65535`, `4294967295`; any other raw
value is stored unchanged. -/
theorem eventDate_sentinel_normalization :
    ∀ raw : Int,
      (normalizeEventDate raw = -1 ↔
        (raw = -1 ∨ raw = 65535 ∨ raw = 4294967295)) ∧
      (raw ≠ -1 → raw ≠ 65535 → raw ≠ 4294967295 → normalizeEventDate raw = raw) := by
  intro raw
  unfold normalizeEventDate DISCONNECT_ALARM_INACTIVE
  constructor
  · split_ifs with h
    · exact iff_of_true rfl h
    · exact iff_of_false (fun he => h (Or.inl he)) h
  · intro h1 h2 h3
    split_ifs with h
    · tauto
    · rfl

/-- C7 witness: a sentinel raw value is normalized to `-1`, an ordinary
timestamp passes through. -/
theorem eventDate_sentinel_normalization_witness :
    normalizeEventDate 65535 = -1 ∧ normalizeEventDate 123 = 123 :=
  ⟨(eventDate_sentinel_normalization 65535).1.mpr (by decide),
   (eventDate_sentinel_normalization 123).2 (by decide) (by decide) (by decide)⟩

/-- Countdown state of one instance: `warningTriggered`,
`countdownStartTime` and `countdownStartValue` (null modelled as `none`). -/
structure CdState where
  warningTriggered : Bool
  countdownStartTime : Option Int
  countdownStartValue : Option Int
  deriving Repr, DecidableEq

/-- Events emitted during one countdown update: `disconnectionWarning`
(with its payload), `firstDisconnectionWarning`, and `stopWarning`. -/
structure CdEmit where
  warning : Option Int
  firstWarning : Option Int
  stopWarning : Bool
  deriving Repr, DecidableEq

/-- Constructor state: no warning, both countdown captures null. -/
def cdInit : CdState := ⟨false, none, none⟩

/-- The disconnection-warning block of `readData` for a cycle that read both
alarm registers: `eventDate` is the (already normalized) event timestamp,
`sensorValue` the fresh `remainingDisconnectionTime`, `now` the Unix time in
seconds.  All arithmetic is on integers, so the source's `Math.floor` is the
identity and is omitted.  Mirrors the source's three scenarios: initialize on
first reading; reset when the device reports less than the extrapolated
remaining time; emit the recomputed countdown plus a one-shot first warning;
on a sentinel timestamp clear state and emit the one-shot stop warning only
if a warning had been emitted. -/
def countdownUpdate (now eventDate sensorValue : Int) (st : CdState) :
    CdState × CdEmit :=
  if eventDate ≠ -1 ∧ eventDate ≠ 65535 ∧ eventDate ≠ DISCONNECT_ALARM_INACTIVE then
    let st1 := if st.countdownStartTime = none then
        { st with countdownStartTime := some now,
                  countdownStartValue := some sensorValue }
      else st
    let elapsed := now - st1.countdownStartTime.getD 0
    let calculatedRemaining := max 0 (st1.countdownStartValue.getD 0 - elapsed)
    let st2 := if sensorValue < calculatedRemaining then
        { st1 with countdownStartTime := some now,
                   countdownStartValue := some sensorValue }
      else st1
    let finalElapsed := now - st2.countdownStartTime.getD 0
    let secondsRemaining := max 0 (st2.countdownStartValue.getD 0 - finalElapsed)
    if st2.warningTriggered then
      (st2, ⟨some secondsRemaining, none, false⟩)
    else
      ({ st2 with warningTriggered := true },
       ⟨some secondsRemaining, some secondsRemaining, false⟩)
  else
    if st.warningTriggered then
      (⟨false, none, none⟩, ⟨none, none, true⟩)
    else
      (st, ⟨none, none, false⟩)

/-- C8: while the countdown is running, a freshly-read device value strictly
below the locally extrapolated `max 0 (v0 - (now - t0))` resets the countdown
to `(now, sensorValue)`, and the `disconnectionWarning` emitted that cycle
carries exactly the device value — never the higher extrapolated one — so the
emission is at most the device-reported value. -/
theorem countdown_reset_to_lower :
    ∀ (now t0 v0 eventDate sensorValue : Int) (st : CdState),
      st.countdownStartTime = some t0 →
      st.countdownStartValue = some v0 →
      eventDate ≠ -1 → eventDate ≠ 65535 → eventDate ≠ 4294967295 →
      0 ≤ sensorValue →
      sensorValue < max 0 (v0 - (now - t0)) →
      ((countdownUpdate now eventDate sensorValue st).1).countdownStartTime = some now ∧
      ((countdownUpdate now eventDate sensorValue st).1).countdownStartValue = some sensorValue ∧
      ((countdownUpdate now eventDate sensorValue st).2).warning = some sensorValue ∧
      (∀ w, ((countdownUpdate now eventDate sensorValue st).2).warning = some w →
        w ≤ sensorValue) := by
  intro now t0 v0 ev sv st h1 h2 he1 he2 he3 hnn hlt
  have he3' : ev ≠ DISCONNECT_ALARM_INACTIVE := by
    unfold DISCONNECT_ALARM_INACTIVE
    exact he3
  have hmax : max 0 (sv - (now - now)) = sv := by omega
  by_cases hw : st.warningTriggered = true
  · refine ⟨?_, ?_, ?_, ?_⟩ <;>
      simp [countdownUpdate, he1, he2, he3', h1, h2, hlt, hw, hmax] <;> omega
  · simp only [Bool.not_eq_true] at hw
    refine ⟨?_, ?_, ?_, ?_⟩ <;>
      simp [countdownUpdate, he1, he2, he3', h1, h2, hlt, hw, hmax] <;> omega

/-- C8 witness: the device reports 50 while the local extrapolation computed
80; the countdown resets to `(now, 50)` and the emission is exactly 50. -/
theorem countdown_reset_to_lower_witness :
    ((countdownUpdate 120 5 50 ⟨true, some 100, some 100⟩).1).countdownStartTime = some 120 ∧
    ((countdownUpdate 120 5 50 ⟨true, some 100, some 100⟩).1).countdownStartValue = some 50 ∧
    ((countdownUpdate 120 5 50 ⟨true, some 100, some 100⟩).2).warning = some 50 ∧
    (∀ w, ((countdownUpdate 120 5 50 ⟨true, some 100, some 100⟩).2).warning = some w →
      w ≤ 50) :=
  countdown_reset_to_lower 120 100 100 5 50 ⟨true, some 100, some 100⟩
    rfl rfl (by decide) (by decide) (by decide) (by decide) (by decide)

lemma countdownUpdate_active_warning (now ev sv : Int) (st : CdState)
    (hact : ev ≠ -1 ∧ ev ≠ 65535 ∧ ev ≠ DISCONNECT_ALARM_INACTIVE) :
    ((countdownUpdate now ev sv st).1).warningTriggered = true := by
  by_cases hw : st.warningTriggered = true
  · by_cases hn : st.countdownStartTime = none <;>
      simp [countdownUpdate, hact.1, hact.2.1, hact.2.2, hw, hn] <;>
      split <;> simp [hw]
  · simp only [Bool.not_eq_true] at hw
    by_cases hn : st.countdownStartTime = none <;>
      simp [countdownUpdate, hact.1, hact.2.1, hact.2.2, hw, hn] <;>
      split <;> simp [hw]

/-- Reachability invariant of the countdown state: when no warning has been
emitted for the current episode, both captures are null.  It holds for the
constructor state and is preserved by every cycle. -/
def CdInv (st : CdState) : Prop :=
  st.warningTriggered = false →
    st.countdownStartTime = none ∧ st.countdownStartValue = none

/-- C9: on a cycle whose normalized event timestamp is `-1`, no
`disconnectionWarning` (and no first warning) is emitted, any prior Counting
state clears to Idle within that cycle — both captured countdown values end
up null in every reachable state — and the one-shot `stopWarning` fires
exactly when a warning had previously been emitted for this episode
(`warningTriggered`).  The invariant that makes "reachable" precise holds
initially and is preserved by every cycle. -/
theorem countdown_clear_on_sentinel :
    (∀ (now sensorValue : Int) (st : CdState), CdInv st →
      ((countdownUpdate now (-1) sensorValue st).2).warning = none ∧
      ((countdownUpdate now (-1) sensorValue st).2).firstWarning = none ∧
      ((countdownUpdate now (-1) sensorValue st).1).countdownStartTime = none ∧
      ((countdownUpdate now (-1) sensorValue st).1).countdownStartValue = none ∧
      ((countdownUpdate now (-1) sensorValue st).2).stopWarning = st.warningTriggered) ∧
    CdInv cdInit ∧
    (∀ (now eventDate sensorValue : Int) (st : CdState), CdInv st →
      CdInv ((countdownUpdate now eventDate sensorValue st).1)) := by
  refine ⟨?_, ?_, ?_⟩
  · intro now sv st hinv
    by_cases hw : st.warningTriggered = true
    · refine ⟨?_, ?_, ?_, ?_, ?_⟩ <;> simp [countdownUpdate, hw]
    · simp only [Bool.not_eq_true] at hw
      obtain ⟨hn1, hn2⟩ := hinv hw
      refine ⟨?_, ?_, ?_, ?_, ?_⟩ <;> simp [countdownUpdate, hw, hn1, hn2]
  · intro h
    exact ⟨rfl, rfl⟩
  · intro now ev sv st hinv
    by_cases hact : ev ≠ -1 ∧ ev ≠ 65535 ∧ ev ≠ DISCONNECT_ALARM_INACTIVE
    · intro hfalse
      rw [countdownUpdate_active_warning now ev sv st hact] at hfalse
      exact absurd hfalse (by decide)
    · by_cases hw : st.warningTriggered = true
      · intro hfalse
        simp [countdownUpdate, hact, hw]
      · simp only [Bool.not_eq_true] at hw
        intro hfalse
        simpa [countdownUpdate, hact, hw] using hinv hw

/-- C9 witness: with an active episode (`warningTriggered`, captures set), a
sentinel cycle emits nothing, clears both captures, and fires `stopWarning`;
the invariant holds at the constructor state. -/
theorem countdown_clear_on_sentinel_witness :
    (((countdownUpdate 200 (-1) 40 ⟨true, some 5, some 30⟩).2).warning = none ∧
     ((countdownUpdate 200 (-1) 40 ⟨true, some 5, some 30⟩).2).firstWarning = none ∧
     ((countdownUpdate 200 (-1) 40 ⟨true, some 5, some 30⟩).1).countdownStartTime = none ∧
     ((countdownUpdate 200 (-1) 40 ⟨true, some 5, some 30⟩).1).countdownStartValue = none ∧
     ((countdownUpdate 200 (-1) 40 ⟨true, some 5, some 30⟩).2).stopWarning = true) ∧
    CdInv cdInit :=
  ⟨countdown_clear_on_sentinel.1 200 40 ⟨true, some 5, some 30⟩
     (by intro h; simp at h),
   countdown_clear_on_sentinel.2.1⟩

end AlfaBySinapsi
